import Mathlib

/-!
Verification development for the pinpoint-game repository.

Shallow embedding of the game's level management, geometry, curve sampling,
scatter-puzzle simulation, and level-renderer resource acquisition logic.
JavaScript numbers are modelled as real numbers; JS `%` (remainder, truncated
toward zero) is modelled by `jsMod` below.  Fallible or stateful surroundings
(asset loading, the 2D canvas context) are modelled by explicit success flags.
-/

/-- A 2-D point, as in `level.ts` (`interface Point { x, y }`). -/
@[ext]
structure Point where
  x : ℝ
  y : ℝ

/-- Truncation toward zero, the rounding used by the JavaScript `%` operator. -/
noncomputable def jsTrunc (x : ℝ) : ℤ :=
  if 0 ≤ x then ⌊x⌋ else ⌈x⌉

/-- The JavaScript remainder operator `n % m`: `n - m * trunc (n / m)`. -/
noncomputable def jsMod (n m : ℝ) : ℝ :=
  n - m * jsTrunc (n / m)

/-- `trueModulo` from `helpers.ts`: `((n % m) + m) % m`, a modulo that is
non-negative for positive `m` regardless of the sign of `n`. -/
noncomputable def trueModulo (n m : ℝ) : ℝ :=
  jsMod (jsMod n m + m) m

lemma jsMod_eq_of_nonneg (n m : ℝ) (hn : 0 ≤ n) (hm : 0 < m) :
    jsMod n m = m * Int.fract (n / m) := by
  unfold jsMod jsTrunc
  rw [if_pos (div_nonneg hn hm.le), Int.fract]
  have hm0 : m ≠ 0 := ne_of_gt hm
  field_simp

lemma neg_lt_jsMod (n m : ℝ) (hm : 0 < m) : -m < jsMod n m := by
  unfold jsMod jsTrunc
  have hmn : m * (n / m) = n := by field_simp
  by_cases h : 0 ≤ n / m
  · rw [if_pos h]
    have hfl : (⌊n / m⌋ : ℝ) ≤ n / m := Int.floor_le _
    nlinarith
  · rw [if_neg h]
    have hcl : (⌈n / m⌉ : ℝ) < n / m + 1 := Int.ceil_lt_add_one _
    nlinarith

lemma fract_div_add_mul_int (n m : ℝ) (k : ℤ) (hm : m ≠ 0) :
    Int.fract ((n + m * k) / m) = Int.fract (n / m) := by
  have : (n + m * k) / m = n / m + k := by field_simp; ring
  rw [this, Int.fract_add_int]

/-- For positive modulus, `trueModulo` agrees with the mathematical
(floor-based) modulo `m * Int.fract (n / m)`. -/
theorem trueModulo_eq_fract (n m : ℝ) (hm : 0 < m) :
    trueModulo n m = m * Int.fract (n / m) := by
  unfold trueModulo
  have h1 : 0 ≤ jsMod n m + m := by linarith [neg_lt_jsMod n m hm]
  rw [jsMod_eq_of_nonneg _ _ h1 hm]
  congr 1
  have h2 : jsMod n m + m = n + m * ((1 - jsTrunc (n / m) : ℤ) : ℝ) := by
    unfold jsMod
    push_cast
    ring
  rw [h2, fract_div_add_mul_int _ _ _ (ne_of_gt hm)]

lemma trueModulo_nonneg (n m : ℝ) (hm : 0 < m) : 0 ≤ trueModulo n m := by
  rw [trueModulo_eq_fract n m hm]
  exact mul_nonneg hm.le (Int.fract_nonneg _)

lemma trueModulo_eq_self (a E : ℝ) (hE : 0 < E) (h0 : 0 ≤ a) (h1 : a < E) :
    trueModulo a E = a := by
  rw [trueModulo_eq_fract a E hE,
    Int.fract_eq_self.mpr ⟨div_nonneg h0 hE.le, (div_lt_one hE).mpr h1⟩,
    mul_comm, div_mul_cancel₀ a (ne_of_gt hE)]

lemma trueModulo_add_period (x E : ℝ) (hE : 0 < E) :
    trueModulo (x + E) E = trueModulo x E := by
  rw [trueModulo_eq_fract _ _ hE, trueModulo_eq_fract _ _ hE]
  congr 1
  have h1 : (x + E) / E = x / E + ((1 : ℤ) : ℝ) := by
    push_cast
    field_simp
  rw [h1, Int.fract_add_int]

/-- The toroidal wrap applied per coordinate in `ScatterPuzzle.update`
(`scatterPuzzle.ts` lines 189-190):
`trueModulo(v + pieceExtent, extendedBound) - pieceExtent`. -/
noncomputable def wrapCoord (v pieceExtent extendedBound : ℝ) : ℝ :=
  trueModulo (v + pieceExtent) extendedBound - pieceExtent

/-- `MultiImageElement` from `level.ts`: one stacked image plus its private
target point. -/
structure MultiImageElement where
  image : String
  target : Point

/-- The optional `spiralEffect` configuration block on a level (`level.ts`,
second snapshot, lines 276-282). -/
structure SpiralEffect where
  centerX : Option ℝ
  centerY : Option ℝ
  strength : Option ℝ
  rotation : Option ℝ
  spiralTightness : Option ℝ

/-- The `Level` configuration entity from `level.ts` (second snapshot,
lines 264-302).  Optional fields are `Option`s; absent means the feature is
off.  `jigsawMovement` appears in `scatterPuzzle.ts` as a constructor
argument and is carried separately there. -/
structure Level where
  id : ℤ
  displayName : String
  target : Point
  targetRadius : ℝ
  image : Option String
  fixedImage : Option String
  multiImage : Option (List MultiImageElement)
  jigsawImage : Option String
  jigsawSlope : Option ℝ
  curveImage : Option String
  curveCursor : Option String
  spiralEffect : Option SpiralEffect

/-- `LevelManager.distance` (`level.ts` lines 343-347): Euclidean norm of the
difference vector, computed as `sqrt (dx*dx + dy*dy)`. -/
noncomputable def LevelManager.distance (a b : Point) : ℝ :=
  Real.sqrt ((a.x - b.x) * (a.x - b.x) + (a.y - b.y) * (a.y - b.y))

/-- `LevelManager.isGuessSuccessful` (`level.ts` lines 337-340): the success
test is the strict comparison `distance < radius`. -/
noncomputable def LevelManager.isGuessSuccessful (guess target : Point) (radius : ℝ) : Prop :=
  LevelManager.distance guess target < radius

/-- `LevelManager.percentageToPixels` (`level.ts` lines 350-355). -/
noncomputable def LevelManager.percentageToPixels (percentage : Point)
    (canvasWidth canvasHeight : ℝ) : Point :=
  ⟨percentage.x / 100 * canvasWidth, percentage.y / 100 * canvasHeight⟩

/-- `LevelManager.pixelsToPercentage` (`level.ts` lines 358-363). -/
noncomputable def LevelManager.pixelsToPercentage (pixels : Point)
    (canvasWidth canvasHeight : ℝ) : Point :=
  ⟨pixels.x / canvasWidth * 100, pixels.y / canvasHeight * 100⟩

/-- The mutable state of a `LevelManager` (`level.ts` lines 305-334):
the stored level list and the current index. -/
structure LevelManager where
  levels : List Level
  currentLevelIndex : ℕ

/-- The `LevelManager` constructor (`level.ts` lines 309-311): stores the
levels sorted ascending by id (`levels.sort((a, b) => a.id - b.id)`), index
starting at 0. -/
def LevelManager.ofLevels (levels : List Level) : LevelManager :=
  ⟨levels.mergeSort (fun a b => decide (a.id ≤ b.id)), 0⟩

/-- `LevelManager.getCurrentLevel` (`level.ts` lines 313-315).  JS array
indexing yields `undefined` out of bounds, modelled by `Option`. -/
def LevelManager.getCurrentLevel (lm : LevelManager) : Option Level :=
  lm.levels[lm.currentLevelIndex]?

/-- `LevelManager.getLevelCount` (`level.ts` lines 328-330). -/
def LevelManager.getLevelCount (lm : LevelManager) : ℕ :=
  lm.levels.length

/-- `LevelManager.loadLevel` (`level.ts` lines 321-326): sets the index only
when `0 <= levelIndex < levels.length`, then returns the current level.  The
index argument is an integer (per the claims; the JS parameter is a number). -/
def LevelManager.loadLevel (lm : LevelManager) (levelIndex : ℤ) :
    LevelManager × Option Level :=
  let lm' := if 0 ≤ levelIndex ∧ levelIndex < (lm.levels.length : ℤ) then
      { lm with currentLevelIndex := levelIndex.toNat }
    else lm
  (lm', lm'.getCurrentLevel)

/-- A loaded raster image for curve sampling: dimensions in pixels and the
RGB triple at each integer pixel coordinate. -/
structure CurveImage where
  width : ℕ
  height : ℕ
  pixel : ℕ → ℕ → ℕ × ℕ × ℕ

/-- The clamped x pixel index sampled by `LevelManager.getCurveDistance`
(`level.ts` lines 381-385): `max(0, min(width - 1, floor((x / 100) * width)))`. -/
noncomputable def LevelManager.clampedX (guess : Point) (img : CurveImage) : ℤ :=
  max 0 (min ((img.width : ℤ) - 1) ⌊guess.x / 100 * (img.width : ℝ)⌋)

/-- The clamped y pixel index sampled by `LevelManager.getCurveDistance`
(`level.ts` lines 382-386). -/
noncomputable def LevelManager.clampedY (guess : Point) (img : CurveImage) : ℤ :=
  max 0 (min ((img.height : ℤ) - 1) ⌊guess.y / 100 * (img.height : ℝ)⌋)

/-- `LevelManager.getCurveDistance` (`level.ts` lines 367-398).  The 2D canvas
context acquisition (`canvas.getContext('2d')`) may fail in the source; that
environment outcome is modelled by the `ctxOk` flag.  When the context is
unavailable the source returns the neutral value 50; otherwise it samples one
pixel at the clamped floor indices, averages R, G, B and rescales from
`[0,255]` to `[0,100]`.  The function is total: no error is raised. -/
noncomputable def LevelManager.getCurveDistance (guess : Point) (img : CurveImage)
    (ctxOk : Bool) : ℝ :=
  if ctxOk = false then 50
  else
    let p := img.pixel (LevelManager.clampedX guess img).toNat
      (LevelManager.clampedY guess img).toNat
    let grayscale : ℝ := ((p.1 : ℝ) + (p.2.1 : ℝ) + (p.2.2 : ℝ)) / 3
    grayscale / 255 * 100

/-- `jigsawGridSize` from `scatterPuzzle.ts` line 22: the puzzle is a fixed
10x10 grid. -/
def jigsawGridSize : ℕ := 10

/-- The state of a `ScatterPuzzle` (`scatterPuzzle.ts`).  `offsets row col`
is the random scatter vector drawn once at construction for the piece at
(row, col); it is an arbitrary parameter here because the source draws it
from `Math.random()` once and never re-rolls it. -/
structure ScatterPuzzle where
  canvasWidth : ℝ
  canvasHeight : ℝ
  imageWidth : ℝ
  imageHeight : ℝ
  target : Point
  jigsawSlope : Option ℝ
  jigsawMovement : Option ℝ
  currentGuess : Point
  offsets : ℕ → ℕ → Point

/-- Aspect-fit scale from `ScatterPuzzle.createPieces` (`scatterPuzzle.ts`
lines 51-55): `min(canvasWidth / imageWidth, canvasHeight / imageHeight)`. -/
noncomputable def ScatterPuzzle.scale (sp : ScatterPuzzle) : ℝ :=
  min (sp.canvasWidth / sp.imageWidth) (sp.canvasHeight / sp.imageHeight)

/-- Piece width used for home positions in `createPieces` (lines 58-62):
the scaled image width divided by the grid size. -/
noncomputable def ScatterPuzzle.pieceW (sp : ScatterPuzzle) : ℝ :=
  sp.imageWidth * sp.scale / jigsawGridSize

/-- Piece height used for home positions in `createPieces` (lines 59-63). -/
noncomputable def ScatterPuzzle.pieceH (sp : ScatterPuzzle) : ℝ :=
  sp.imageHeight * sp.scale / jigsawGridSize

/-- Home x position (`trueX`) of the piece in column `col`
(`scatterPuzzle.ts` line 89). -/
noncomputable def ScatterPuzzle.trueX (sp : ScatterPuzzle) (col : ℕ) : ℝ :=
  col * sp.pieceW

/-- Home y position (`trueY`) of the piece in row `row`
(`scatterPuzzle.ts` line 90). -/
noncomputable def ScatterPuzzle.trueY (sp : ScatterPuzzle) (row : ℕ) : ℝ :=
  row * sp.pieceH

/-- The target-piece test from `createPieces` (`scatterPuzzle.ts` lines
97-103): the piece at (row, col) contains the target point iff the target
lies within its half-open cell. -/
def ScatterPuzzle.inTargetCell (sp : ScatterPuzzle) (row col : ℕ) : Prop :=
  sp.trueX col ≤ sp.target.x ∧ sp.target.x < sp.trueX (col + 1) ∧
  sp.trueY row ≤ sp.target.y ∧ sp.target.y < sp.trueY (row + 1)

/-- `targetPieceOffset` as computed for the piece at (row, col) in
`createPieces` (`scatterPuzzle.ts` lines 106-109): target minus the piece's
top-left corner. -/
noncomputable def ScatterPuzzle.targetPieceOffset (sp : ScatterPuzzle) (row col : ℕ) : Point :=
  ⟨sp.target.x - sp.trueX col, sp.target.y - sp.trueY row⟩

/-- The distance driving the scatter factor, from `ScatterPuzzle.update`
(`scatterPuzzle.ts` lines 127-143): when a slope is configured, the code
first negates it (`const m = -this.jigsawSlope`) and evaluates the signed
standard-form line-distance formula with `m`; otherwise it is the Euclidean
distance from guess to target. -/
noncomputable def ScatterPuzzle.dist (sp : ScatterPuzzle) : ℝ :=
  match sp.jigsawSlope with
  | some slope =>
    let m := -slope
    (m * sp.currentGuess.x - sp.currentGuess.y + (sp.target.y - m * sp.target.x)) /
      Real.sqrt (m * m + 1)
  | none =>
    Real.sqrt ((sp.currentGuess.x - sp.target.x) * (sp.currentGuess.x - sp.target.x) +
      (sp.currentGuess.y - sp.target.y) * (sp.currentGuess.y - sp.target.y))

/-- `scatterFactor` (`scatterPuzzle.ts` line 146): distance over the fixed
sensitivity constant 400, with no upper clamp. -/
noncomputable def ScatterPuzzle.scatterFactor (sp : ScatterPuzzle) : ℝ :=
  sp.dist / 400

/-- `movementFactor` (`scatterPuzzle.ts` line 175): the optional
`jigsawMovement` scale, defaulting to 1. -/
noncomputable def ScatterPuzzle.movementFactor (sp : ScatterPuzzle) : ℝ :=
  sp.jigsawMovement.getD 1

/-- Piece width used by the wrap in `update` (`scatterPuzzle.ts` line 180):
canvas width over grid size (distinct from `pieceW`, which uses the scaled
image width). -/
noncomputable def ScatterPuzzle.pieceWidth (sp : ScatterPuzzle) : ℝ :=
  sp.canvasWidth / jigsawGridSize

/-- Piece height used by the wrap in `update` (`scatterPuzzle.ts` line 181). -/
noncomputable def ScatterPuzzle.pieceHeight (sp : ScatterPuzzle) : ℝ :=
  sp.canvasHeight / jigsawGridSize

/-- `extendedWidth` (`scatterPuzzle.ts` line 184): canvas width plus two
piece widths. -/
noncomputable def ScatterPuzzle.extendedWidth (sp : ScatterPuzzle) : ℝ :=
  sp.canvasWidth + 2 * sp.pieceWidth

/-- `extendedHeight` (`scatterPuzzle.ts` line 185). -/
noncomputable def ScatterPuzzle.extendedHeight (sp : ScatterPuzzle) : ℝ :=
  sp.canvasHeight + 2 * sp.pieceHeight

open Classical in
/-- One per-frame `ScatterPuzzle.update` step (`scatterPuzzle.ts` lines
126-195), expressed as the new sprite position of the piece at (row, col).
The target piece follows the cursor (guess minus `targetPieceOffset`); every
other piece is displaced from home by `scatterFactor * offset *
movementFactor` and wrapped toroidally into the extended bound. -/
noncomputable def ScatterPuzzle.update (sp : ScatterPuzzle) (row col : ℕ) : Point :=
  if sp.inTargetCell row col then
    ⟨sp.currentGuess.x - (sp.targetPieceOffset row col).x,
     sp.currentGuess.y - (sp.targetPieceOffset row col).y⟩
  else
    ⟨wrapCoord (sp.trueX col + sp.scatterFactor * (sp.offsets row col).x * sp.movementFactor)
       sp.pieceWidth sp.extendedWidth,
     wrapCoord (sp.trueY row + sp.scatterFactor * (sp.offsets row col).y * sp.movementFactor)
       sp.pieceHeight sp.extendedHeight⟩

/-- Per-resource asset-acquisition outcomes for one `LevelRenderer.loadLevel`
call.  Each `try { await Assets.load(...) } catch` block in the source either
succeeds or fails; `multiPrefix` is the number of multi-image elements whose
loads succeed before the first failure (the source's `for` loop aborts the
remainder of the list on the first rejection). -/
structure LoadOk where
  imageOk : Bool
  multiPrefix : ℕ
  fixedOk : Bool
  jigsawOk : Bool
  curveOk : Bool
  cursorOk : Bool

/-- The per-level resources held by a `LevelRenderer` after `loadLevel`
(`level.ts`, second snapshot, lines 582-802): sprite handles are modelled by
presence flags and the multi-image sprite list by its length. -/
structure RendererState where
  backgroundSprite : Bool
  fixedImageSprite : Bool
  backgroundSprites : ℕ
  scatterPuzzle : Bool
  curveImage : Bool
  curveCursorSprite : Bool

/-- `LevelRenderer.loadLevel` (`level.ts`, second snapshot, lines 605-802).
The method first unconditionally tears down every previously held resource,
so the resulting state depends only on the level and on the asset-load
outcomes; teardown is reflected here by the function ignoring any prior
state.  Acquisition guards are exactly those of the source: the single-image,
multi-image, fixed-image, curve-image and curve-cursor branches each test
only their own field, while the jigsaw branch additionally requires that
neither `image` nor `multiImage` is set
(`if (level.jigsawImage && !level.image && !level.multiImage)`). -/
def LevelRenderer.loadLevel (level : Level) (ok : LoadOk) : RendererState :=
  { backgroundSprite := level.image.isSome && ok.imageOk
    fixedImageSprite := level.fixedImage.isSome && ok.fixedOk
    backgroundSprites := match level.multiImage with
      | some elems => min ok.multiPrefix elems.length
      | none => 0
    scatterPuzzle := level.jigsawImage.isSome && level.image.isNone &&
      level.multiImage.isNone && ok.jigsawOk
    curveImage := level.curveImage.isSome && ok.curveOk
    curveCursorSprite := level.curveCursor.isSome && ok.cursorOk }

/-- Modelled from the spec: `pointToLineDistance(guess, target, slope)` is
described in the spec as the signed perpendicular distance from `guess` to
the line through `target` with the given slope, computed via the
standard-form line equation
`slope * x - y + (target.y - slope * target.x) = 0`; the source has no
separate function of this name (the computation is inlined in
`ScatterPuzzle.update`), so this definition follows the spec's words for
comparison with the code. -/
noncomputable def pointToLineDistance (guess target : Point) (slope : ℝ) : ℝ :=
  (slope * guess.x - guess.y + (target.y - slope * target.x)) /
    Real.sqrt (slope * slope + 1)

lemma wrapCoord_eq_self (v pieceExtent extendedBound : ℝ) (hE : 0 < extendedBound)
    (h0 : 0 ≤ v + pieceExtent) (h1 : v + pieceExtent < extendedBound) :
    wrapCoord v pieceExtent extendedBound = v := by
  unfold wrapCoord
  rw [trueModulo_eq_self _ _ hE h0 h1]
  ring

/-- Claim C3: the toroidal wrap is periodic with period equal to the extended
bound, and `trueModulo` is non-negative for every real dividend and positive
divisor. -/
theorem c3_wrap_periodic (x canvasWidth pieceWidth n m : ℝ)
    (hE : 0 < canvasWidth + 2 * pieceWidth) (hm : 0 < m) :
    wrapCoord (x + (canvasWidth + 2 * pieceWidth)) pieceWidth
        (canvasWidth + 2 * pieceWidth) =
      wrapCoord x pieceWidth (canvasWidth + 2 * pieceWidth) ∧
    0 ≤ trueModulo n m := by
  constructor
  · unfold wrapCoord
    rw [show x + (canvasWidth + 2 * pieceWidth) + pieceWidth
        = x + pieceWidth + (canvasWidth + 2 * pieceWidth) by ring]
    rw [trueModulo_add_period _ _ hE]
  · exact trueModulo_nonneg n m hm

/-- Witness for C3 at concrete inputs. -/
theorem c3_wrap_periodic_witness :
    (0:ℝ) < 10 + 2 * 1 ∧ (0:ℝ) < 5 ∧
    (wrapCoord (3 + (10 + 2 * 1)) 1 (10 + 2 * 1) = wrapCoord 3 1 (10 + 2 * 1) ∧
      (0:ℝ) ≤ trueModulo (-7) 5) :=
  ⟨by norm_num, by norm_num, c3_wrap_periodic 3 10 1 (-7) 5 (by norm_num) (by norm_num)⟩

/-- Concrete scatter puzzle with a configured slope of 1, target at the
origin, and guess at (1, 1): the guess lies exactly on the line of slope 1
through the target. -/
noncomputable def spC4 : ScatterPuzzle :=
  { canvasWidth := 1000, canvasHeight := 1000, imageWidth := 1000, imageHeight := 1000,
    target := ⟨0, 0⟩, jigsawSlope := some 1, jigsawMovement := none,
    currentGuess := ⟨1, 1⟩, offsets := fun _ _ => ⟨0, 0⟩ }

/-- Counterexample to C4 as stated: with configured slope 1, guess (1, 1) and
target (0, 0), the guess lies on the line of slope 1 through the target (the
spec-modelled signed distance is 0), yet the code's distance is nonzero — the
code measures against the line with the negated slope. -/
theorem c4_counterexample :
    spC4.dist ≠ pointToLineDistance spC4.currentGuess spC4.target 1 := by
  have hL : spC4.dist = (-2) / Real.sqrt 2 := by
    show (-(1:ℝ) * 1 - 1 + (0 - -(1:ℝ) * 0)) / Real.sqrt (-(1:ℝ) * -(1:ℝ) + 1)
        = (-2) / Real.sqrt 2
    norm_num
  have hR : pointToLineDistance spC4.currentGuess spC4.target 1 = 0 := by
    show ((1:ℝ) * 1 - 1 + (0 - (1:ℝ) * 0)) / Real.sqrt ((1:ℝ) * 1 + 1) = 0
    norm_num
  rw [hL, hR]
  exact div_ne_zero (by norm_num) (ne_of_gt (Real.sqrt_pos.mpr (by norm_num)))

/-- Claim C4 (amended): when a slope `s` is configured, the distance driving
the scatter factor is the signed perpendicular distance (sign preserved) from
the guess to the line through the target with slope `-s` — the configured
slope negated, i.e. the slope as seen in screen coordinates where the y axis
points down; when no slope is configured it is the Euclidean distance from
guess to target. -/
theorem c4_dist_amended (sp : ScatterPuzzle) :
    (∀ s, sp.jigsawSlope = some s →
      sp.dist = pointToLineDistance sp.currentGuess sp.target (-s)) ∧
    (sp.jigsawSlope = none →
      sp.dist = LevelManager.distance sp.currentGuess sp.target) := by
  constructor
  · intro s hs
    unfold ScatterPuzzle.dist pointToLineDistance
    rw [hs]
  · intro h
    unfold ScatterPuzzle.dist LevelManager.distance
    rw [h]

/-- Witness for C4 at the concrete puzzle `spC4`. -/
theorem c4_dist_amended_witness :
    spC4.jigsawSlope = some 1 ∧
    spC4.dist = pointToLineDistance spC4.currentGuess spC4.target (-1) :=
  ⟨rfl, (c4_dist_amended spC4).1 1 rfl⟩

/-- Claim C6: when the sampling backend (2D canvas context) cannot be
acquired, `getCurveDistance` returns the neutral midpoint 50; the embedded
function is total, so no error is raised or propagated. -/
theorem c6_ctx_unavailable (guess : Point) (img : CurveImage) :
    LevelManager.getCurveDistance guess img false = 50 := rfl

/-- Claim C7: the success test is true iff the Euclidean distance between
guess and target is strictly below the radius; at distance exactly equal to
the radius it is false. -/
theorem c7_success_iff_lt (guess target : Point) (radius : ℝ) :
    (LevelManager.isGuessSuccessful guess target radius ↔
      LevelManager.distance guess target < radius) ∧
    (LevelManager.distance guess target = radius →
      ¬ LevelManager.isGuessSuccessful guess target radius) := by
  constructor
  · exact Iff.rfl
  · intro h hs
    rw [LevelManager.isGuessSuccessful, h] at hs
    exact lt_irrefl _ hs

/-- Witness for C7: a guess at distance exactly 5 from the target with
radius 5 is not successful. -/
theorem c7_success_iff_lt_witness :
    LevelManager.distance ⟨0, 0⟩ ⟨3, 4⟩ = 5 ∧
    ¬ LevelManager.isGuessSuccessful ⟨0, 0⟩ ⟨3, 4⟩ 5 := by
  have h5 : LevelManager.distance ⟨0, 0⟩ ⟨3, 4⟩ = 5 := by
    show Real.sqrt (((0:ℝ) - 3) * ((0:ℝ) - 3) + ((0:ℝ) - 4) * ((0:ℝ) - 4)) = 5
    rw [show ((0:ℝ) - 3) * ((0:ℝ) - 3) + ((0:ℝ) - 4) * ((0:ℝ) - 4) = 5 ^ 2 by norm_num]
    exact Real.sqrt_sq (by norm_num)
  exact ⟨h5, (c7_success_iff_lt ⟨0, 0⟩ ⟨3, 4⟩ 5).2 h5⟩

/-- Claim C8: converting a point from percentage space to pixel space and
back is the identity, exactly over the reals, for positive canvas
dimensions. -/
theorem c8_roundtrip (p : Point) (w h : ℝ) (hw : 0 < w) (hh : 0 < h) :
    LevelManager.pixelsToPercentage (LevelManager.percentageToPixels p w h) w h = p := by
  have hw0 : w ≠ 0 := ne_of_gt hw
  have hh0 : h ≠ 0 := ne_of_gt hh
  ext
  · show p.x / 100 * w / w * 100 = p.x
    field_simp
    ring
  · show p.y / 100 * h / h * 100 = p.y
    field_simp
    ring

/-- Witness for C8 at a concrete point and canvas size. -/
theorem c8_roundtrip_witness :
    (0:ℝ) < 800 ∧ (0:ℝ) < 600 ∧
    LevelManager.pixelsToPercentage
      (LevelManager.percentageToPixels ⟨30, 40⟩ 800 600) 800 600 = ⟨30, 40⟩ :=
  ⟨by norm_num, by norm_num, c8_roundtrip ⟨30, 40⟩ 800 600 (by norm_num) (by norm_num)⟩

/-- Claim C9: for an out-of-range index (negative or at least the level
count), `loadLevel` leaves the current index unchanged and returns the
unchanged current level; the embedded function is total, so no error is
raised. -/
theorem c9_out_of_range_ignored (lm : LevelManager) (idx : ℤ)
    (h : ¬ (0 ≤ idx ∧ idx < (lm.levels.length : ℤ))) :
    (lm.loadLevel idx).1 = lm ∧ (lm.loadLevel idx).2 = lm.getCurrentLevel := by
  unfold LevelManager.loadLevel
  rw [if_neg h]
  exact ⟨rfl, rfl⟩

/-- A concrete level used by the catalog witnesses. -/
noncomputable def exLevel : Level :=
  { id := 1, displayName := "ex", target := ⟨50, 50⟩, targetRadius := 5,
    image := none, fixedImage := none, multiImage := none, jigsawImage := none,
    jigsawSlope := none, curveImage := none, curveCursor := none,
    spiralEffect := none }

/-- A concrete one-level manager used by the catalog witnesses. -/
noncomputable def exManager : LevelManager := LevelManager.ofLevels [exLevel]

/-- Witness for C9: index 5 on a one-level manager is ignored. -/
theorem c9_out_of_range_ignored_witness :
    ¬ (0 ≤ (5:ℤ) ∧ (5:ℤ) < (exManager.levels.length : ℤ)) ∧
    ((exManager.loadLevel 5).1 = exManager ∧
      (exManager.loadLevel 5).2 = exManager.getCurrentLevel) := by
  have hlen : exManager.levels.length = 1 := by
    show ([exLevel].mergeSort fun a b => decide (a.id ≤ b.id)).length = 1
    rw [List.length_mergeSort]
    rfl
  have h : ¬ (0 ≤ (5:ℤ) ∧ (5:ℤ) < (exManager.levels.length : ℤ)) := by
    rw [hlen]
    norm_num
  exact ⟨h, c9_out_of_range_ignored exManager 5 h⟩

/-- A sequence of `loadLevel` transitions, keeping only the resulting manager
state (`level.ts` lines 321-326 applied in order). -/
def LevelManager.runLoadLevels (lm : LevelManager) (idxs : List ℤ) : LevelManager :=
  idxs.foldl (fun acc i => (acc.loadLevel i).1) lm

lemma loadLevel_levels (lm : LevelManager) (i : ℤ) :
    (lm.loadLevel i).1.levels = lm.levels := by
  unfold LevelManager.loadLevel
  by_cases hc : 0 ≤ i ∧ i < (lm.levels.length : ℤ)
  · rw [if_pos hc]
  · rw [if_neg hc]

lemma loadLevel_index_lt (lm : LevelManager) (i : ℤ)
    (h : lm.currentLevelIndex < lm.levels.length) :
    (lm.loadLevel i).1.currentLevelIndex < (lm.loadLevel i).1.levels.length := by
  unfold LevelManager.loadLevel
  by_cases hc : 0 ≤ i ∧ i < (lm.levels.length : ℤ)
  · rw [if_pos hc]
    show i.toNat < lm.levels.length
    obtain ⟨h0, h1⟩ := hc
    omega
  · rw [if_neg hc]
    exact h

lemma runLoadLevels_index_lt (idxs : List ℤ) (lm : LevelManager)
    (h : lm.currentLevelIndex < lm.levels.length) :
    (lm.runLoadLevels idxs).currentLevelIndex < (lm.runLoadLevels idxs).levels.length := by
  induction idxs generalizing lm with
  | nil => exact h
  | cons i rest ih =>
    show ((lm.loadLevel i).1.runLoadLevels rest).currentLevelIndex <
      ((lm.loadLevel i).1.runLoadLevels rest).levels.length
    exact ih _ (loadLevel_index_lt lm i h)

/-- Claim C10: starting from a manager built over a non-empty level list, the
current index stays strictly below the level count across every sequence of
`loadLevel` calls with arbitrary integer arguments, and `getCurrentLevel`
always returns an element of the stored level list. -/
theorem c10_index_always_valid (ls : List Level) (hne : ls ≠ []) (idxs : List ℤ) :
    ((LevelManager.ofLevels ls).runLoadLevels idxs).currentLevelIndex <
      ((LevelManager.ofLevels ls).runLoadLevels idxs).getLevelCount ∧
    ∃ l, ((LevelManager.ofLevels ls).runLoadLevels idxs).getCurrentLevel = some l ∧
      l ∈ ((LevelManager.ofLevels ls).runLoadLevels idxs).levels := by
  have h0 : (LevelManager.ofLevels ls).currentLevelIndex <
      (LevelManager.ofLevels ls).levels.length := by
    show 0 < (ls.mergeSort fun a b => decide (a.id ≤ b.id)).length
    rw [List.length_mergeSort]
    exact List.length_pos.mpr hne
  have hidx := runLoadLevels_index_lt idxs _ h0
  exact ⟨hidx, _, List.getElem?_eq_getElem hidx, List.getElem_mem hidx⟩

/-- Witness for C10 on a concrete one-level manager and a mixed in-range /
out-of-range index sequence. -/
theorem c10_index_always_valid_witness :
    ([exLevel] ≠ ([] : List Level)) ∧
    (((LevelManager.ofLevels [exLevel]).runLoadLevels [0, 5, -3]).currentLevelIndex <
        ((LevelManager.ofLevels [exLevel]).runLoadLevels [0, 5, -3]).getLevelCount ∧
      ∃ l, ((LevelManager.ofLevels [exLevel]).runLoadLevels [0, 5, -3]).getCurrentLevel = some l ∧
        l ∈ ((LevelManager.ofLevels [exLevel]).runLoadLevels [0, 5, -3]).levels) :=
  ⟨List.cons_ne_nil _ _, c10_index_always_valid [exLevel] (List.cons_ne_nil _ _) [0, 5, -3]⟩

/-- Claim C5: with the sampling backend available, `getCurveDistance` maps
the percentage point to pixel indices by `(pct/100)*dimension`, floor-clamps
into `[0, dimension-1]`, averages the sampled pixel's R, G, B and rescales
from `[0,255]` to `[0,100]`; a solid-black image yields 0 and a solid-white
image yields 100 at every query point, and points outside the bounds sample
the nearest edge pixel. -/
theorem c5_curve_sampling (guess : Point) (img : CurveImage)
    (hw : 0 < img.width) (hh : 0 < img.height) :
    (LevelManager.getCurveDistance guess img true =
      (((img.pixel (LevelManager.clampedX guess img).toNat
            (LevelManager.clampedY guess img).toNat).1 : ℝ) +
        ((img.pixel (LevelManager.clampedX guess img).toNat
            (LevelManager.clampedY guess img).toNat).2.1 : ℝ) +
        ((img.pixel (LevelManager.clampedX guess img).toNat
            (LevelManager.clampedY guess img).toNat).2.2 : ℝ)) / 3 / 255 * 100) ∧
    ((∀ x y, img.pixel x y = (0, 0, 0)) →
      LevelManager.getCurveDistance guess img true = 0) ∧
    ((∀ x y, img.pixel x y = (255, 255, 255)) →
      LevelManager.getCurveDistance guess img true = 100) ∧
    (100 ≤ guess.x → LevelManager.clampedX guess img = (img.width : ℤ) - 1) ∧
    (guess.x ≤ 0 → LevelManager.clampedX guess img = 0) ∧
    (100 ≤ guess.y → LevelManager.clampedY guess img = (img.height : ℤ) - 1) ∧
    (guess.y ≤ 0 → LevelManager.clampedY guess img = 0) := by
  have hfst : LevelManager.getCurveDistance guess img true =
      (((img.pixel (LevelManager.clampedX guess img).toNat
            (LevelManager.clampedY guess img).toNat).1 : ℝ) +
        ((img.pixel (LevelManager.clampedX guess img).toNat
            (LevelManager.clampedY guess img).toNat).2.1 : ℝ) +
        ((img.pixel (LevelManager.clampedX guess img).toNat
            (LevelManager.clampedY guess img).toNat).2.2 : ℝ)) / 3 / 255 * 100 := rfl
  refine ⟨hfst, ?_, ?_, ?_, ?_, ?_, ?_⟩
  · intro hb
    rw [hfst, hb]
    norm_num
  · intro hwht
    rw [hfst, hwht]
    norm_num
  · intro hx
    unfold LevelManager.clampedX
    have h1 : (img.width : ℝ) ≤ guess.x / 100 * (img.width : ℝ) := by
      have hw' : (0:ℝ) < (img.width : ℝ) := by exact_mod_cast hw
      nlinarith
    have h2 : (img.width : ℤ) ≤ ⌊guess.x / 100 * (img.width : ℝ)⌋ :=
      Int.le_floor.mpr (by exact_mod_cast h1)
    rw [min_eq_left (by omega), max_eq_right (by omega)]
  · intro hx
    unfold LevelManager.clampedX
    have h1 : guess.x / 100 * (img.width : ℝ) ≤ 0 := by
      have hw' : (0:ℝ) ≤ (img.width : ℝ) := by positivity
      nlinarith
    have h2 : ⌊guess.x / 100 * (img.width : ℝ)⌋ ≤ 0 := Int.floor_nonpos h1
    rw [min_eq_right (by omega), max_eq_left (by omega)]
  · intro hy
    unfold LevelManager.clampedY
    have h1 : (img.height : ℝ) ≤ guess.y / 100 * (img.height : ℝ) := by
      have hh' : (0:ℝ) < (img.height : ℝ) := by exact_mod_cast hh
      nlinarith
    have h2 : (img.height : ℤ) ≤ ⌊guess.y / 100 * (img.height : ℝ)⌋ :=
      Int.le_floor.mpr (by exact_mod_cast h1)
    rw [min_eq_left (by omega), max_eq_right (by omega)]
  · intro hy
    unfold LevelManager.clampedY
    have h1 : guess.y / 100 * (img.height : ℝ) ≤ 0 := by
      have hh' : (0:ℝ) ≤ (img.height : ℝ) := by positivity
      nlinarith
    have h2 : ⌊guess.y / 100 * (img.height : ℝ)⌋ ≤ 0 := Int.floor_nonpos h1
    rw [min_eq_right (by omega), max_eq_left (by omega)]

/-- A concrete 2x2 solid-black curve image. -/
def exImg : CurveImage := ⟨2, 2, fun _ _ => (0, 0, 0)⟩

/-- A concrete out-of-bounds query point (x beyond 100 percent, y negative). -/
noncomputable def exGuess : Point := ⟨150, -20⟩

/-- Witness for C5: a solid-black 2x2 image sampled at an out-of-bounds
point yields 0, with the x index clamped to the right edge and the y index
clamped to 0. -/
theorem c5_curve_sampling_witness :
    0 < exImg.width ∧ 0 < exImg.height ∧
    LevelManager.getCurveDistance exGuess exImg true = 0 ∧
    LevelManager.clampedX exGuess exImg = (exImg.width : ℤ) - 1 ∧
    LevelManager.clampedY exGuess exImg = 0 := by
  have h := c5_curve_sampling exGuess exImg (by decide) (by decide)
  refine ⟨by decide, by decide, h.2.1 (fun _ _ => rfl), ?_, ?_⟩
  · exact h.2.2.2.1 (by norm_num [exGuess])
  · exact h.2.2.2.2.2.2 (by norm_num [exGuess])

/-- A concrete level configured with a single image, a multi-image list and a
jigsaw image all at once. -/
noncomputable def exLevelC1 : Level :=
  { id := 1, displayName := "both", target := ⟨0, 0⟩, targetRadius := 5,
    image := some "a.png", fixedImage := none,
    multiImage := some [{ image := "b.png", target := ⟨1, 1⟩ }],
    jigsawImage := some "j.png", jigsawSlope := none,
    curveImage := none, curveCursor := none, spiralEffect := none }

/-- Asset-load outcomes where every acquisition succeeds. -/
def exOkC1 : LoadOk :=
  { imageOk := true, multiPrefix := 1, fixedOk := true, jigsawOk := true,
    curveOk := true, cursorOk := true }

/-- Counterexample to C1 as stated: on a level that configures both a single
image and a multi-image list, `loadLevel` (with all asset loads succeeding)
still acquires a multi-image sprite — the multi-image branch in the source is
not guarded by the absence of `image`. -/
theorem c1_counterexample :
    exLevelC1.image.isSome = true ∧
    (LevelRenderer.loadLevel exLevelC1 exOkC1).backgroundSprites ≠ 0 := by
  constructor
  · rfl
  · decide

/-- Claim C1 (amended): the jigsaw puzzle is suppressed whenever a single
image or a multi-image list is configured — `loadLevel` acquires no puzzle
instance in that case; a configured single image does not, however, suppress
the multi-image sprites, which are acquired whenever `multiImage` is
present. -/
theorem c1_jigsaw_suppressed (level : Level) (ok : LoadOk)
    (h : level.image.isSome = true ∨ level.multiImage.isSome = true) :
    (LevelRenderer.loadLevel level ok).scatterPuzzle = false := by
  rcases h with h | h
  · obtain ⟨a, ha⟩ := Option.isSome_iff_exists.mp h
    simp [LevelRenderer.loadLevel, ha]
  · obtain ⟨a, ha⟩ := Option.isSome_iff_exists.mp h
    simp [LevelRenderer.loadLevel, ha]

/-- Witness for C1 on the concrete level `exLevelC1`. -/
theorem c1_jigsaw_suppressed_witness :
    (exLevelC1.image.isSome = true ∨ exLevelC1.multiImage.isSome = true) ∧
    (LevelRenderer.loadLevel exLevelC1 exOkC1).scatterPuzzle = false :=
  ⟨Or.inl rfl, c1_jigsaw_suppressed exLevelC1 exOkC1 (Or.inl rfl)⟩

/-- Claim C2: for a scatter puzzle whose target lies inside some grid cell,
when the guess equals the target exactly, one update positions every piece at
its home grid position (the wrap leaves the undisplaced position unchanged),
and the target piece in particular sits at guess minus `targetPieceOffset`,
which coincides with its home position. -/
theorem c2_guess_on_target (sp : ScatterPuzzle)
    (hcw : 0 < sp.canvasWidth) (hch : 0 < sp.canvasHeight)
    (hiw : 0 < sp.imageWidth) (hih : 0 < sp.imageHeight)
    (hg : sp.currentGuess = sp.target)
    (htgt : ∃ r c, r < jigsawGridSize ∧ c < jigsawGridSize ∧ sp.inTargetCell r c)
    (row col : ℕ) (hrow : row < jigsawGridSize) (hcol : col < jigsawGridSize) :
    sp.update row col = ⟨sp.trueX col, sp.trueY row⟩ ∧
    (sp.inTargetCell row col →
      sp.update row col = ⟨sp.currentGuess.x - (sp.targetPieceOffset row col).x,
        sp.currentGuess.y - (sp.targetPieceOffset row col).y⟩) := by
  have h10 : (0:ℝ) < ((jigsawGridSize : ℕ) : ℝ) := by norm_num [jigsawGridSize]
  have hG : ((jigsawGridSize : ℕ) : ℝ) = 10 := by norm_num [jigsawGridSize]
  have hdist : sp.dist = 0 := by
    unfold ScatterPuzzle.dist
    rcases hs : sp.jigsawSlope with _ | s
    · simp only [hs]
      rw [hg]
      simp
    · simp only [hs]
      rw [hg, div_eq_zero_iff]
      left
      ring
  have hsf : sp.scatterFactor = 0 := by
    unfold ScatterPuzzle.scatterFactor
    rw [hdist]
    norm_num
  have hscale : 0 < sp.scale := lt_min (div_pos hcw hiw) (div_pos hch hih)
  have hpw : 0 < sp.pieceW := by
    unfold ScatterPuzzle.pieceW
    exact div_pos (mul_pos hiw hscale) h10
  have hph : 0 < sp.pieceH := by
    unfold ScatterPuzzle.pieceH
    exact div_pos (mul_pos hih hscale) h10
  have hpW : 0 < sp.pieceWidth := by
    unfold ScatterPuzzle.pieceWidth
    exact div_pos hcw h10
  have hpH : 0 < sp.pieceHeight := by
    unfold ScatterPuzzle.pieceHeight
    exact div_pos hch h10
  have hscaled_w : sp.imageWidth * sp.scale ≤ sp.canvasWidth := by
    have h1 : sp.scale ≤ sp.canvasWidth / sp.imageWidth := min_le_left _ _
    calc sp.imageWidth * sp.scale
        ≤ sp.imageWidth * (sp.canvasWidth / sp.imageWidth) :=
          mul_le_mul_of_nonneg_left h1 hiw.le
      _ = sp.canvasWidth := by field_simp
  have hscaled_h : sp.imageHeight * sp.scale ≤ sp.canvasHeight := by
    have h1 : sp.scale ≤ sp.canvasHeight / sp.imageHeight := min_le_right _ _
    calc sp.imageHeight * sp.scale
        ≤ sp.imageHeight * (sp.canvasHeight / sp.imageHeight) :=
          mul_le_mul_of_nonneg_left h1 hih.le
      _ = sp.canvasHeight := by field_simp
  have hpw_le : sp.pieceW ≤ sp.pieceWidth := by
    unfold ScatterPuzzle.pieceW ScatterPuzzle.pieceWidth
    gcongr
  have hph_le : sp.pieceH ≤ sp.pieceHeight := by
    unfold ScatterPuzzle.pieceH ScatterPuzzle.pieceHeight
    gcongr
  have hextW : 0 < sp.extendedWidth := by
    unfold ScatterPuzzle.extendedWidth
    linarith
  have hextH : 0 < sp.extendedHeight := by
    unfold ScatterPuzzle.extendedHeight
    linarith
  have h10pw : ((jigsawGridSize : ℕ) : ℝ) * sp.pieceWidth = sp.canvasWidth := by
    unfold ScatterPuzzle.pieceWidth
    field_simp
  have h10ph : ((jigsawGridSize : ℕ) : ℝ) * sp.pieceHeight = sp.canvasHeight := by
    unfold ScatterPuzzle.pieceHeight
    field_simp
  rw [hG] at h10pw h10ph
  have hcol9 : ((col : ℕ) : ℝ) ≤ 9 := by
    have h9 : col ≤ 9 := Nat.lt_succ_iff.mp hcol
    exact_mod_cast h9
  have hrow9 : ((row : ℕ) : ℝ) ≤ 9 := by
    have h9 : row ≤ 9 := Nat.lt_succ_iff.mp hrow
    exact_mod_cast h9
  have htx0 : 0 ≤ sp.trueX col := by
    unfold ScatterPuzzle.trueX
    exact mul_nonneg (Nat.cast_nonneg col) hpw.le
  have hty0 : 0 ≤ sp.trueY row := by
    unfold ScatterPuzzle.trueY
    exact mul_nonneg (Nat.cast_nonneg row) hph.le
  have htx9 : sp.trueX col ≤ 9 * sp.pieceW := by
    unfold ScatterPuzzle.trueX
    exact mul_le_mul_of_nonneg_right hcol9 hpw.le
  have hty9 : sp.trueY row ≤ 9 * sp.pieceH := by
    unfold ScatterPuzzle.trueY
    exact mul_le_mul_of_nonneg_right hrow9 hph.le
  have hx_wrap : wrapCoord (sp.trueX col) sp.pieceWidth sp.extendedWidth = sp.trueX col := by
    apply wrapCoord_eq_self _ _ _ hextW
    · linarith
    · unfold ScatterPuzzle.extendedWidth
      linarith
  have hy_wrap : wrapCoord (sp.trueY row) sp.pieceHeight sp.extendedHeight = sp.trueY row := by
    apply wrapCoord_eq_self _ _ _ hextH
    · linarith
    · unfold ScatterPuzzle.extendedHeight
      linarith
  by_cases hmem : sp.inTargetCell row col
  · constructor
    · unfold ScatterPuzzle.update
      rw [if_pos hmem]
      unfold ScatterPuzzle.targetPieceOffset
      rw [hg]
      refine Point.ext ?_ ?_
      · show sp.target.x - (sp.target.x - sp.trueX col) = sp.trueX col
        ring
      · show sp.target.y - (sp.target.y - sp.trueY row) = sp.trueY row
        ring
    · intro _
      unfold ScatterPuzzle.update
      rw [if_pos hmem]
  · refine ⟨?_, fun hc => absurd hc hmem⟩
    unfold ScatterPuzzle.update
    rw [if_neg hmem, hsf]
    refine Point.ext ?_ ?_
    · show wrapCoord (sp.trueX col + 0 * (sp.offsets row col).x * sp.movementFactor)
        sp.pieceWidth sp.extendedWidth = sp.trueX col
      rw [zero_mul, zero_mul, add_zero]
      exact hx_wrap
    · show wrapCoord (sp.trueY row + 0 * (sp.offsets row col).y * sp.movementFactor)
        sp.pieceHeight sp.extendedHeight = sp.trueY row
      rw [zero_mul, zero_mul, add_zero]
      exact hy_wrap

/-- A concrete scatter puzzle on a 100x100 canvas with a 100x100 image
(aspect-fit scale 1, piece size 10), target and guess both at (5, 5), no
slope and no movement scale. -/
noncomputable def exPuzzle : ScatterPuzzle :=
  { canvasWidth := 100, canvasHeight := 100, imageWidth := 100, imageHeight := 100,
    target := ⟨5, 5⟩, jigsawSlope := none, jigsawMovement := none,
    currentGuess := ⟨5, 5⟩, offsets := fun _ _ => ⟨300, 400⟩ }

/-- Witness for C2 on `exPuzzle` at the target cell (0, 0). -/
theorem c2_guess_on_target_witness :
    0 < exPuzzle.canvasWidth ∧ 0 < exPuzzle.canvasHeight ∧
    0 < exPuzzle.imageWidth ∧ 0 < exPuzzle.imageHeight ∧
    exPuzzle.currentGuess = exPuzzle.target ∧
    (∃ r c, r < jigsawGridSize ∧ c < jigsawGridSize ∧ exPuzzle.inTargetCell r c) ∧
    (exPuzzle.update 0 0 = ⟨exPuzzle.trueX 0, exPuzzle.trueY 0⟩ ∧
      (exPuzzle.inTargetCell 0 0 →
        exPuzzle.update 0 0 = ⟨exPuzzle.currentGuess.x - (exPuzzle.targetPieceOffset 0 0).x,
          exPuzzle.currentGuess.y - (exPuzzle.targetPieceOffset 0 0).y⟩)) := by
  have hcell : exPuzzle.inTargetCell 0 0 := by
    norm_num [ScatterPuzzle.inTargetCell, ScatterPuzzle.trueX, ScatterPuzzle.trueY,
      ScatterPuzzle.pieceW, ScatterPuzzle.pieceH, ScatterPuzzle.scale, jigsawGridSize,
      exPuzzle]
  have htgt : ∃ r c, r < jigsawGridSize ∧ c < jigsawGridSize ∧ exPuzzle.inTargetCell r c :=
    ⟨0, 0, by norm_num [jigsawGridSize], by norm_num [jigsawGridSize], hcell⟩
  refine ⟨by norm_num [exPuzzle], by norm_num [exPuzzle], by norm_num [exPuzzle],
    by norm_num [exPuzzle], rfl, htgt, ?_⟩
  exact c2_guess_on_target exPuzzle (by norm_num [exPuzzle]) (by norm_num [exPuzzle])
    (by norm_num [exPuzzle]) (by norm_num [exPuzzle]) rfl htgt 0 0
    (by norm_num [jigsawGridSize]) (by norm_num [jigsawGridSize])
